import Mathlib

/-!
Shallow embedding of the declaration-grouping utilities of
`src/packages/kbn-docs-utils/src/api_docs/utils.ts`:
`createEmptyScope`, `addApiDeclarationToScope`, `groupPluginApi` and
`countScopeApi`, together with theorems settling the specification's
claims about them.

TypeScript arrays become `List`, optional fields become `Option`, and the
in-place mutation of the `ScopeApi` accumulator becomes explicit state
passing (`ScopeApi → ScopeApi`); `push` becomes appending a singleton.
-/

namespace KbnDocsUtils

/-- Modelled from the spec: the lifecycle tag of a declaration.  The
`types.ts` file declaring the enum is not part of the excerpt; the spec
describes the tag as `None, Setup, Start`, with `None` rendered here as
`Option.none` on the declaration's `lifecycle` field. -/
inductive Lifecycle where
  | SETUP
  | START
deriving DecidableEq, Repr

/-- Modelled from the spec: the kind tag of a declaration, described as
`Class, Interface, Enum, Function, Object, or other`; the single
`OtherKind` constructor stands for every unrecognized kind, and an absent
tag is `Option.none` on the declaration's `type` field. -/
inductive TypeKind where
  | ClassKind
  | InterfaceKind
  | EnumKind
  | FunctionKind
  | ObjectKind
  | OtherKind
deriving DecidableEq, Repr

/-- Modelled from the spec: one documented symbol, with its `type` kind
tag, its `lifecycle` tag, and an opaque `label` payload passed through
unchanged (standing in for the label/signature data of `types.ts`). -/
structure ApiDeclaration where
  label : String
  type : Option TypeKind
  lifecycle : Option Lifecycle
deriving DecidableEq, Repr

/-- Modelled from the spec and the field accesses of `utils.ts`: the
classification result, with two optional lifecycle slots and six ordered
buckets. -/
structure ScopeApi where
  setup : Option ApiDeclaration
  start : Option ApiDeclaration
  classes : List ApiDeclaration
  functions : List ApiDeclaration
  interfaces : List ApiDeclaration
  enums : List ApiDeclaration
  misc : List ApiDeclaration
  objects : List ApiDeclaration
deriving DecidableEq, Repr

/-- `createEmptyScope` of `utils.ts`: all six buckets empty; the object
literal leaves `setup` and `start` undefined, i.e. `none`. -/
def createEmptyScope : ScopeApi :=
  { classes := []
    functions := []
    interfaces := []
    enums := []
    misc := []
    objects := []
    setup := none
    start := none }

/-- `addApiDeclarationToScope` of `utils.ts`.  The TypeScript mutates
`scope` in place; here the updated scope is returned. -/
def addApiDeclarationToScope (declaration : ApiDeclaration) (scope : ScopeApi) :
    ScopeApi :=
  if declaration.lifecycle = some Lifecycle.SETUP then
    { scope with setup := some declaration }
  else if declaration.lifecycle = some Lifecycle.START then
    { scope with start := some declaration }
  else
    match declaration.type with
    | some TypeKind.ClassKind => { scope with classes := scope.classes ++ [declaration] }
    | some TypeKind.InterfaceKind => { scope with interfaces := scope.interfaces ++ [declaration] }
    | some TypeKind.EnumKind => { scope with enums := scope.enums ++ [declaration] }
    | some TypeKind.FunctionKind => { scope with functions := scope.functions ++ [declaration] }
    | some TypeKind.ObjectKind => { scope with objects := scope.objects ++ [declaration] }
    | _ => { scope with misc := scope.misc ++ [declaration] }

/-- `groupPluginApi` of `utils.ts`: a fresh empty scope, then one
`forEach` pass adding each declaration, i.e. a left fold. -/
def groupPluginApi (declarations : List ApiDeclaration) : ScopeApi :=
  declarations.foldl (fun scope declaration => addApiDeclarationToScope declaration scope)
    createEmptyScope

/-- `countScopeApi` of `utils.ts`, with the summands in the source's
order. -/
def countScopeApi (api : ScopeApi) : Nat :=
  (if api.setup.isSome then 1 else 0) +
    (if api.start.isSome then 1 else 0) +
    api.classes.length +
    api.interfaces.length +
    api.functions.length +
    api.objects.length +
    api.enums.length +
    api.misc.length

/-- `groupPluginApi` with the program state made explicit: the `forEach`
loop of the source receives the declarations array and the scope, and its
body only calls `addApiDeclarationToScope(declaration, scope)`, which
writes fields of `scope` alone; the array component of the state is
threaded through untouched. -/
def runGroupPluginApi (declarations : List ApiDeclaration) :
    List ApiDeclaration × ScopeApi :=
  declarations.foldl
    (fun st declaration => (st.1, addApiDeclarationToScope declaration st.2))
    (declarations, createEmptyScope)

/-! Destination predicates: where one declaration is sent by
`addApiDeclarationToScope`, read off the branches of the source. -/

/-- The declaration takes the first branch: lifecycle tag `SETUP`. -/
def isSetupDecl (d : ApiDeclaration) : Bool :=
  match d.lifecycle with
  | some Lifecycle.SETUP => true
  | _ => false

/-- The declaration takes the second branch: lifecycle tag `START`. -/
def isStartDecl (d : ApiDeclaration) : Bool :=
  match d.lifecycle with
  | some Lifecycle.START => true
  | _ => false

/-- The declaration reaches the `switch` over its type tag. -/
def inTypeBuckets (d : ApiDeclaration) : Bool :=
  !(isSetupDecl d) && !(isStartDecl d)

/-- Sent to the `classes` bucket. -/
def destClasses (d : ApiDeclaration) : Bool :=
  inTypeBuckets d && d.type == some TypeKind.ClassKind

/-- Sent to the `interfaces` bucket. -/
def destInterfaces (d : ApiDeclaration) : Bool :=
  inTypeBuckets d && d.type == some TypeKind.InterfaceKind

/-- Sent to the `enums` bucket. -/
def destEnums (d : ApiDeclaration) : Bool :=
  inTypeBuckets d && d.type == some TypeKind.EnumKind

/-- Sent to the `functions` bucket. -/
def destFunctions (d : ApiDeclaration) : Bool :=
  inTypeBuckets d && d.type == some TypeKind.FunctionKind

/-- Sent to the `objects` bucket. -/
def destObjects (d : ApiDeclaration) : Bool :=
  inTypeBuckets d && d.type == some TypeKind.ObjectKind

/-- The type tag matches one of the five named `case`s of the `switch`. -/
def recognizedKind (d : ApiDeclaration) : Bool :=
  match d.type with
  | some TypeKind.ClassKind => true
  | some TypeKind.InterfaceKind => true
  | some TypeKind.EnumKind => true
  | some TypeKind.FunctionKind => true
  | some TypeKind.ObjectKind => true
  | _ => false

/-- Sent to the `misc` bucket: the `default` arm of the `switch`. -/
def destMisc (d : ApiDeclaration) : Bool :=
  inTypeBuckets d && !(recognizedKind d)

/-- How many places of a `ScopeApi` hold a given declaration: the two
lifecycle slots plus the multiplicity in each of the six buckets. -/
def occurrences (api : ScopeApi) (d : ApiDeclaration) : Nat :=
  (if api.setup = some d then 1 else 0) +
    (if api.start = some d then 1 else 0) +
    api.classes.count d +
    api.interfaces.count d +
    api.enums.count d +
    api.functions.count d +
    api.objects.count d +
    api.misc.count d

/-- `countScopeApi` as the specification words it: 1 for a present setup
slot, 1 for a present start slot, plus the lengths of all six sequences,
listed in the spec's order. -/
def countScopeApiSpec (api : ScopeApi) : Nat :=
  (if api.setup.isSome then 1 else 0) +
    (if api.start.isSome then 1 else 0) +
    (api.classes.length + api.interfaces.length + api.enums.length +
      api.functions.length + api.objects.length + api.misc.length)

/-! Concrete declarations used by witnesses and counterexamples. -/

/-- A setup-tagged declaration. -/
def setupDeclA : ApiDeclaration :=
  { label := "setupA", type := none, lifecycle := some Lifecycle.SETUP }

/-- A second, distinct setup-tagged declaration. -/
def setupDeclB : ApiDeclaration :=
  { label := "setupB", type := some TypeKind.ClassKind, lifecycle := some Lifecycle.SETUP }

/-- A class declaration with no lifecycle tag. -/
def classDecl : ApiDeclaration :=
  { label := "cls", type := some TypeKind.ClassKind, lifecycle := none }

/-- A declaration with an unrecognized type and no lifecycle tag. -/
def miscDecl : ApiDeclaration :=
  { label := "other", type := some TypeKind.OtherKind, lifecycle := none }

/-! Characterization lemmas: each field of `addApiDeclarationToScope` and
of the fold performed by `groupPluginApi`. -/

/-- One step of classification, written field by field: the lifecycle
slots follow last-wins, each bucket grows by the declaration exactly when
its destination predicate holds. -/
theorem addApiDeclarationToScope_eq (d : ApiDeclaration) (s : ScopeApi) :
    addApiDeclarationToScope d s =
      { setup := if isSetupDecl d then some d else s.setup
        start := if isStartDecl d then some d else s.start
        classes := s.classes ++ if destClasses d then [d] else []
        functions := s.functions ++ if destFunctions d then [d] else []
        interfaces := s.interfaces ++ if destInterfaces d then [d] else []
        enums := s.enums ++ if destEnums d then [d] else []
        misc := s.misc ++ if destMisc d then [d] else []
        objects := s.objects ++ if destObjects d then [d] else [] } := by
  obtain ⟨lb, ty, lc⟩ := d
  rcases lc with _ | l
  · rcases ty with _ | k
    · simp [addApiDeclarationToScope, isSetupDecl, isStartDecl, inTypeBuckets,
        destClasses, destInterfaces, destEnums, destFunctions, destObjects,
        destMisc, recognizedKind]
    · cases k <;>
        simp [addApiDeclarationToScope, isSetupDecl, isStartDecl, inTypeBuckets,
          destClasses, destInterfaces, destEnums, destFunctions, destObjects,
          destMisc, recognizedKind]
  · cases l <;>
      simp [addApiDeclarationToScope, isSetupDecl, isStartDecl, inTypeBuckets,
        destClasses, destInterfaces, destEnums, destFunctions, destObjects,
        destMisc, recognizedKind]

/-- The `setup` slot after the fold: the last setup-tagged declaration,
or the initial slot when there is none. -/
theorem foldl_add_setup (s : ScopeApi) (ds : List ApiDeclaration) :
    (ds.foldl (fun scope declaration => addApiDeclarationToScope declaration scope) s).setup
      = ((ds.filter isSetupDecl).getLast?).or s.setup := by
  induction ds using List.reverseRecOn with
  | nil => simp
  | append_singleton ds d ih =>
    rw [List.foldl_append, List.filter_append]
    simp only [List.foldl_cons, List.foldl_nil]
    rw [addApiDeclarationToScope_eq]
    by_cases hp : isSetupDecl d <;> simp [hp, ih, List.getLast?_concat]

/-- The `start` slot after the fold: the last start-tagged declaration,
or the initial slot when there is none. -/
theorem foldl_add_start (s : ScopeApi) (ds : List ApiDeclaration) :
    (ds.foldl (fun scope declaration => addApiDeclarationToScope declaration scope) s).start
      = ((ds.filter isStartDecl).getLast?).or s.start := by
  induction ds using List.reverseRecOn with
  | nil => simp
  | append_singleton ds d ih =>
    rw [List.foldl_append, List.filter_append]
    simp only [List.foldl_cons, List.foldl_nil]
    rw [addApiDeclarationToScope_eq]
    by_cases hp : isStartDecl d <;> simp [hp, ih, List.getLast?_concat]

/-- The `classes` bucket after the fold. -/
theorem foldl_add_classes (s : ScopeApi) (ds : List ApiDeclaration) :
    (ds.foldl (fun scope declaration => addApiDeclarationToScope declaration scope) s).classes
      = s.classes ++ ds.filter destClasses := by
  induction ds using List.reverseRecOn with
  | nil => simp
  | append_singleton ds d ih =>
    rw [List.foldl_append, List.filter_append]
    simp only [List.foldl_cons, List.foldl_nil]
    rw [addApiDeclarationToScope_eq]
    by_cases hp : destClasses d <;> simp [hp, ih]

/-- The `interfaces` bucket after the fold. -/
theorem foldl_add_interfaces (s : ScopeApi) (ds : List ApiDeclaration) :
    (ds.foldl (fun scope declaration => addApiDeclarationToScope declaration scope) s).interfaces
      = s.interfaces ++ ds.filter destInterfaces := by
  induction ds using List.reverseRecOn with
  | nil => simp
  | append_singleton ds d ih =>
    rw [List.foldl_append, List.filter_append]
    simp only [List.foldl_cons, List.foldl_nil]
    rw [addApiDeclarationToScope_eq]
    by_cases hp : destInterfaces d <;> simp [hp, ih]

/-- The `enums` bucket after the fold. -/
theorem foldl_add_enums (s : ScopeApi) (ds : List ApiDeclaration) :
    (ds.foldl (fun scope declaration => addApiDeclarationToScope declaration scope) s).enums
      = s.enums ++ ds.filter destEnums := by
  induction ds using List.reverseRecOn with
  | nil => simp
  | append_singleton ds d ih =>
    rw [List.foldl_append, List.filter_append]
    simp only [List.foldl_cons, List.foldl_nil]
    rw [addApiDeclarationToScope_eq]
    by_cases hp : destEnums d <;> simp [hp, ih]

/-- The `functions` bucket after the fold. -/
theorem foldl_add_functions (s : ScopeApi) (ds : List ApiDeclaration) :
    (ds.foldl (fun scope declaration => addApiDeclarationToScope declaration scope) s).functions
      = s.functions ++ ds.filter destFunctions := by
  induction ds using List.reverseRecOn with
  | nil => simp
  | append_singleton ds d ih =>
    rw [List.foldl_append, List.filter_append]
    simp only [List.foldl_cons, List.foldl_nil]
    rw [addApiDeclarationToScope_eq]
    by_cases hp : destFunctions d <;> simp [hp, ih]

/-- The `objects` bucket after the fold. -/
theorem foldl_add_objects (s : ScopeApi) (ds : List ApiDeclaration) :
    (ds.foldl (fun scope declaration => addApiDeclarationToScope declaration scope) s).objects
      = s.objects ++ ds.filter destObjects := by
  induction ds using List.reverseRecOn with
  | nil => simp
  | append_singleton ds d ih =>
    rw [List.foldl_append, List.filter_append]
    simp only [List.foldl_cons, List.foldl_nil]
    rw [addApiDeclarationToScope_eq]
    by_cases hp : destObjects d <;> simp [hp, ih]

/-- The `misc` bucket after the fold. -/
theorem foldl_add_misc (s : ScopeApi) (ds : List ApiDeclaration) :
    (ds.foldl (fun scope declaration => addApiDeclarationToScope declaration scope) s).misc
      = s.misc ++ ds.filter destMisc := by
  induction ds using List.reverseRecOn with
  | nil => simp
  | append_singleton ds d ih =>
    rw [List.foldl_append, List.filter_append]
    simp only [List.foldl_cons, List.foldl_nil]
    rw [addApiDeclarationToScope_eq]
    by_cases hp : destMisc d <;> simp [hp, ih]

/-- The `setup` slot of a grouping is the last setup-tagged declaration. -/
theorem groupPluginApi_setup (ds : List ApiDeclaration) :
    (groupPluginApi ds).setup = (ds.filter isSetupDecl).getLast? := by
  unfold groupPluginApi
  rw [foldl_add_setup]
  cases (ds.filter isSetupDecl).getLast? <;> simp [createEmptyScope]

/-- The `start` slot of a grouping is the last start-tagged declaration. -/
theorem groupPluginApi_start (ds : List ApiDeclaration) :
    (groupPluginApi ds).start = (ds.filter isStartDecl).getLast? := by
  unfold groupPluginApi
  rw [foldl_add_start]
  cases (ds.filter isStartDecl).getLast? <;> simp [createEmptyScope]

/-- The `classes` bucket of a grouping is a filter of the input. -/
theorem groupPluginApi_classes (ds : List ApiDeclaration) :
    (groupPluginApi ds).classes = ds.filter destClasses := by
  unfold groupPluginApi
  rw [foldl_add_classes]
  simp [createEmptyScope]

/-- The `interfaces` bucket of a grouping is a filter of the input. -/
theorem groupPluginApi_interfaces (ds : List ApiDeclaration) :
    (groupPluginApi ds).interfaces = ds.filter destInterfaces := by
  unfold groupPluginApi
  rw [foldl_add_interfaces]
  simp [createEmptyScope]

/-- The `enums` bucket of a grouping is a filter of the input. -/
theorem groupPluginApi_enums (ds : List ApiDeclaration) :
    (groupPluginApi ds).enums = ds.filter destEnums := by
  unfold groupPluginApi
  rw [foldl_add_enums]
  simp [createEmptyScope]

/-- The `functions` bucket of a grouping is a filter of the input. -/
theorem groupPluginApi_functions (ds : List ApiDeclaration) :
    (groupPluginApi ds).functions = ds.filter destFunctions := by
  unfold groupPluginApi
  rw [foldl_add_functions]
  simp [createEmptyScope]

/-- The `objects` bucket of a grouping is a filter of the input. -/
theorem groupPluginApi_objects (ds : List ApiDeclaration) :
    (groupPluginApi ds).objects = ds.filter destObjects := by
  unfold groupPluginApi
  rw [foldl_add_objects]
  simp [createEmptyScope]

/-- The `misc` bucket of a grouping is a filter of the input. -/
theorem groupPluginApi_misc (ds : List ApiDeclaration) :
    (groupPluginApi ds).misc = ds.filter destMisc := by
  unfold groupPluginApi
  rw [foldl_add_misc]
  simp [createEmptyScope]

/-- Every declaration satisfies exactly one of the eight destination
predicates, so the filtered lengths partition the input's length. -/
theorem length_partition (ds : List ApiDeclaration) :
    (ds.filter isSetupDecl).length + (ds.filter isStartDecl).length +
      (ds.filter destClasses).length + (ds.filter destInterfaces).length +
      (ds.filter destEnums).length + (ds.filter destFunctions).length +
      (ds.filter destObjects).length + (ds.filter destMisc).length = ds.length := by
  induction ds with
  | nil => rfl
  | cons d ds ih =>
    obtain ⟨lb, ty, lc⟩ := d
    rcases lc with _ | l
    · rcases ty with _ | k
      · simp [List.filter_cons, isSetupDecl, isStartDecl, inTypeBuckets,
          destClasses, destInterfaces, destEnums, destFunctions, destObjects,
          destMisc, recognizedKind]
        omega
      · cases k <;>
          (simp [List.filter_cons, isSetupDecl, isStartDecl, inTypeBuckets,
            destClasses, destInterfaces, destEnums, destFunctions, destObjects,
            destMisc, recognizedKind]; omega)
    · cases l <;>
        (simp [List.filter_cons, isSetupDecl, isStartDecl, inTypeBuckets,
          destClasses, destInterfaces, destEnums, destFunctions, destObjects,
          destMisc, recognizedKind]; omega)

/-- A declaration that does not reach the `switch` is in none of the six
type buckets of any grouping. -/
theorem not_mem_type_buckets (ds : List ApiDeclaration) (d : ApiDeclaration)
    (hnt : inTypeBuckets d = false) :
    d ∉ (groupPluginApi ds).classes ∧ d ∉ (groupPluginApi ds).interfaces ∧
      d ∉ (groupPluginApi ds).enums ∧ d ∉ (groupPluginApi ds).functions ∧
      d ∉ (groupPluginApi ds).objects ∧ d ∉ (groupPluginApi ds).misc := by
  rw [groupPluginApi_classes, groupPluginApi_interfaces, groupPluginApi_enums,
    groupPluginApi_functions, groupPluginApi_objects, groupPluginApi_misc]
  refine ⟨?_, ?_, ?_, ?_, ?_, ?_⟩ <;>
    · intro hmem
      have hp := (List.mem_filter.mp hmem).2
      simp [destClasses, destInterfaces, destEnums, destFunctions, destObjects,
        destMisc, hnt] at hp

/-- Multiplicity in a filtered list: unchanged when the element passes the
predicate, zero otherwise. -/
theorem count_filter_eq (p : ApiDeclaration → Bool) (l : List ApiDeclaration)
    (a : ApiDeclaration) :
    (l.filter p).count a = if p a = true then l.count a else 0 := by
  by_cases hp : p a = true
  · rw [if_pos hp]
    exact List.count_filter hp
  · rw [if_neg hp]
    apply List.count_eq_zero_of_not_mem
    intro hmem
    exact hp (List.mem_filter.mp hmem).2

/-- A list of length at most one is nonempty exactly as often as its
length counts. -/
theorem slot_indicator_eq_length (l : List ApiDeclaration) (h : l.length ≤ 1) :
    (if l.getLast?.isSome then 1 else 0) = l.length := by
  cases l with
  | nil => rfl
  | cons a l' =>
    cases l' with
    | nil => simp
    | cons b l'' => simp at h

/-- A declaration cannot take both lifecycle branches. -/
theorem setup_not_start (d : ApiDeclaration) (h : isSetupDecl d = true) :
    isStartDecl d = false := by
  rcases hl : d.lifecycle with _ | l
  · simp [isSetupDecl, hl] at h
  · cases l
    · simp [isStartDecl, hl]
    · simp [isSetupDecl, hl] at h

/-- The first component of the explicit-state fold never changes. -/
theorem foldl_pair_fst (ds : List ApiDeclaration) (acc : List ApiDeclaration)
    (s : ScopeApi) :
    ds.foldl (fun st declaration => (st.1, addApiDeclarationToScope declaration st.2))
        (acc, s)
      = (acc, ds.foldl (fun scope declaration => addApiDeclarationToScope declaration scope) s) := by
  induction ds generalizing s with
  | nil => rfl
  | cons d ds ih =>
    simp only [List.foldl_cons]
    exact ih (addApiDeclarationToScope d s)

/-! Claim theorems. -/

/-- C5: within each of the six buckets, `groupPluginApi` keeps the
declarations in input order: every bucket equals a filter of the input,
hence is a sublist of the input, built by appending alone. -/
theorem buckets_stable_partition (ds : List ApiDeclaration) :
    (groupPluginApi ds).classes = ds.filter destClasses ∧
    (groupPluginApi ds).interfaces = ds.filter destInterfaces ∧
    (groupPluginApi ds).enums = ds.filter destEnums ∧
    (groupPluginApi ds).functions = ds.filter destFunctions ∧
    (groupPluginApi ds).objects = ds.filter destObjects ∧
    (groupPluginApi ds).misc = ds.filter destMisc ∧
    (groupPluginApi ds).classes.Sublist ds ∧
    (groupPluginApi ds).interfaces.Sublist ds ∧
    (groupPluginApi ds).enums.Sublist ds ∧
    (groupPluginApi ds).functions.Sublist ds ∧
    (groupPluginApi ds).objects.Sublist ds ∧
    (groupPluginApi ds).misc.Sublist ds := by
  rw [groupPluginApi_classes, groupPluginApi_interfaces, groupPluginApi_enums,
    groupPluginApi_functions, groupPluginApi_objects, groupPluginApi_misc]
  exact ⟨rfl, rfl, rfl, rfl, rfl, rfl, List.filter_sublist ds, List.filter_sublist ds,
    List.filter_sublist ds, List.filter_sublist ds, List.filter_sublist ds,
    List.filter_sublist ds⟩

/-- C7: `countScopeApi` returns exactly what the specification words —
one for each present lifecycle slot plus the lengths of the six buckets;
being a Lean function it is pure and total. -/
theorem countScopeApi_matches_spec (api : ScopeApi) :
    countScopeApi api = countScopeApiSpec api := by
  unfold countScopeApi countScopeApiSpec
  cases h1 : api.setup.isSome <;> cases h2 : api.start.isSome <;>
    simp [h1, h2] <;> omega

/-- C8: `createEmptyScope` has all six buckets empty and both lifecycle
slots unset, and grouping the empty input returns exactly that scope. -/
theorem createEmptyScope_all_empty :
    createEmptyScope.setup = none ∧ createEmptyScope.start = none ∧
    createEmptyScope.classes = [] ∧ createEmptyScope.interfaces = [] ∧
    createEmptyScope.enums = [] ∧ createEmptyScope.functions = [] ∧
    createEmptyScope.objects = [] ∧ createEmptyScope.misc = [] ∧
    groupPluginApi [] = createEmptyScope :=
  ⟨rfl, rfl, rfl, rfl, rfl, rfl, rfl, rfl, rfl⟩

/-- C9: running `groupPluginApi` with the program state made explicit
leaves the declarations array unchanged and produces exactly the grouped
scope — the loop body writes fields of the scope alone. -/
theorem groupPluginApi_input_unchanged (ds : List ApiDeclaration) :
    (runGroupPluginApi ds).1 = ds ∧ (runGroupPluginApi ds).2 = groupPluginApi ds := by
  unfold runGroupPluginApi groupPluginApi
  rw [foldl_pair_fst]
  exact ⟨rfl, rfl⟩

/-- C10: one call to `addApiDeclarationToScope` changes at most one field
of the scope: it assigns `setup`, assigns `start`, or appends one element
to exactly one of the six buckets, leaving every other field as it was. -/
theorem addApiDeclarationToScope_single_field (scope : ScopeApi) (d : ApiDeclaration) :
    addApiDeclarationToScope d scope = { scope with setup := some d } ∨
    addApiDeclarationToScope d scope = { scope with start := some d } ∨
    addApiDeclarationToScope d scope = { scope with classes := scope.classes ++ [d] } ∨
    addApiDeclarationToScope d scope = { scope with interfaces := scope.interfaces ++ [d] } ∨
    addApiDeclarationToScope d scope = { scope with enums := scope.enums ++ [d] } ∨
    addApiDeclarationToScope d scope = { scope with functions := scope.functions ++ [d] } ∨
    addApiDeclarationToScope d scope = { scope with objects := scope.objects ++ [d] } ∨
    addApiDeclarationToScope d scope = { scope with misc := scope.misc ++ [d] } := by
  obtain ⟨lb, ty, lc⟩ := d
  rcases lc with _ | l
  · rcases ty with _ | k
    · right; right; right; right; right; right; right
      simp [addApiDeclarationToScope]
    · cases k
      · right; right; left; simp [addApiDeclarationToScope]
      · right; right; right; left; simp [addApiDeclarationToScope]
      · right; right; right; right; left; simp [addApiDeclarationToScope]
      · right; right; right; right; right; left; simp [addApiDeclarationToScope]
      · right; right; right; right; right; right; left; simp [addApiDeclarationToScope]
      · right; right; right; right; right; right; right; simp [addApiDeclarationToScope]
  · cases l
    · left; simp [addApiDeclarationToScope]
    · right; left; simp [addApiDeclarationToScope]

/-- C3: a declaration whose lifecycle tag is Setup or Start is never
placed in any of the six type buckets, whatever its type tag — the
lifecycle check comes before the `switch`. -/
theorem lifecycle_priority_excludes_type_buckets (ds : List ApiDeclaration)
    (d : ApiDeclaration)
    (h : d.lifecycle = some Lifecycle.SETUP ∨ d.lifecycle = some Lifecycle.START) :
    d ∉ (groupPluginApi ds).classes ∧ d ∉ (groupPluginApi ds).interfaces ∧
      d ∉ (groupPluginApi ds).enums ∧ d ∉ (groupPluginApi ds).functions ∧
      d ∉ (groupPluginApi ds).objects ∧ d ∉ (groupPluginApi ds).misc := by
  have hnt : inTypeBuckets d = false := by
    rcases h with h | h <;> simp [inTypeBuckets, isSetupDecl, isStartDecl, h]
  exact not_mem_type_buckets ds d hnt

/-- Witness for C3: a setup-tagged declaration that also carries type
tag Class lands in no type bucket. -/
theorem lifecycle_priority_excludes_type_buckets_witness :
    (setupDeclB.lifecycle = some Lifecycle.SETUP ∨
        setupDeclB.lifecycle = some Lifecycle.START) ∧
      (setupDeclB ∉ (groupPluginApi [setupDeclB, classDecl]).classes ∧
        setupDeclB ∉ (groupPluginApi [setupDeclB, classDecl]).interfaces ∧
        setupDeclB ∉ (groupPluginApi [setupDeclB, classDecl]).enums ∧
        setupDeclB ∉ (groupPluginApi [setupDeclB, classDecl]).functions ∧
        setupDeclB ∉ (groupPluginApi [setupDeclB, classDecl]).objects ∧
        setupDeclB ∉ (groupPluginApi [setupDeclB, classDecl]).misc) :=
  ⟨Or.inl rfl,
    lifecycle_priority_excludes_type_buckets [setupDeclB, classDecl] setupDeclB
      (Or.inl rfl)⟩

/-- C6: for a declaration with neither lifecycle tag, the `switch`
appends it to the bucket named by its type tag, and to `misc` when the
tag is none of the five recognized kinds (including an absent tag). -/
theorem type_dispatch (scope : ScopeApi) (d : ApiDeclaration)
    (h1 : d.lifecycle ≠ some Lifecycle.SETUP)
    (h2 : d.lifecycle ≠ some Lifecycle.START) :
    (d.type = some TypeKind.ClassKind →
      addApiDeclarationToScope d scope = { scope with classes := scope.classes ++ [d] }) ∧
    (d.type = some TypeKind.InterfaceKind →
      addApiDeclarationToScope d scope = { scope with interfaces := scope.interfaces ++ [d] }) ∧
    (d.type = some TypeKind.EnumKind →
      addApiDeclarationToScope d scope = { scope with enums := scope.enums ++ [d] }) ∧
    (d.type = some TypeKind.FunctionKind →
      addApiDeclarationToScope d scope = { scope with functions := scope.functions ++ [d] }) ∧
    (d.type = some TypeKind.ObjectKind →
      addApiDeclarationToScope d scope = { scope with objects := scope.objects ++ [d] }) ∧
    ((d.type ≠ some TypeKind.ClassKind ∧ d.type ≠ some TypeKind.InterfaceKind ∧
        d.type ≠ some TypeKind.EnumKind ∧ d.type ≠ some TypeKind.FunctionKind ∧
        d.type ≠ some TypeKind.ObjectKind) →
      addApiDeclarationToScope d scope = { scope with misc := scope.misc ++ [d] }) := by
  unfold addApiDeclarationToScope
  rw [if_neg h1, if_neg h2]
  refine ⟨?_, ?_, ?_, ?_, ?_, ?_⟩
  · intro ht; rw [ht]
  · intro ht; rw [ht]
  · intro ht; rw [ht]
  · intro ht; rw [ht]
  · intro ht; rw [ht]
  · rintro ⟨n1, n2, n3, n4, n5⟩
    rcases ht : d.type with _ | k
    · rfl
    · cases k
      · exact absurd ht n1
      · exact absurd ht n2
      · exact absurd ht n3
      · exact absurd ht n4
      · exact absurd ht n5
      · rfl

/-- Witness for C6: an untagged class declaration goes to `classes` of
the empty scope. -/
theorem type_dispatch_witness :
    (classDecl.lifecycle ≠ some Lifecycle.SETUP ∧
        classDecl.lifecycle ≠ some Lifecycle.START) ∧
      ((classDecl.type = some TypeKind.ClassKind →
          addApiDeclarationToScope classDecl createEmptyScope
            = { createEmptyScope with classes := createEmptyScope.classes ++ [classDecl] }) ∧
        (classDecl.type = some TypeKind.InterfaceKind →
          addApiDeclarationToScope classDecl createEmptyScope
            = { createEmptyScope with interfaces := createEmptyScope.interfaces ++ [classDecl] }) ∧
        (classDecl.type = some TypeKind.EnumKind →
          addApiDeclarationToScope classDecl createEmptyScope
            = { createEmptyScope with enums := createEmptyScope.enums ++ [classDecl] }) ∧
        (classDecl.type = some TypeKind.FunctionKind →
          addApiDeclarationToScope classDecl createEmptyScope
            = { createEmptyScope with functions := createEmptyScope.functions ++ [classDecl] }) ∧
        (classDecl.type = some TypeKind.ObjectKind →
          addApiDeclarationToScope classDecl createEmptyScope
            = { createEmptyScope with objects := createEmptyScope.objects ++ [classDecl] }) ∧
        ((classDecl.type ≠ some TypeKind.ClassKind ∧
            classDecl.type ≠ some TypeKind.InterfaceKind ∧
            classDecl.type ≠ some TypeKind.EnumKind ∧
            classDecl.type ≠ some TypeKind.FunctionKind ∧
            classDecl.type ≠ some TypeKind.ObjectKind) →
          addApiDeclarationToScope classDecl createEmptyScope
            = { createEmptyScope with misc := createEmptyScope.misc ++ [classDecl] })) :=
  ⟨⟨by decide, by decide⟩,
    type_dispatch createEmptyScope classDecl (by decide) (by decide)⟩

/-- C4: with two or more setup-tagged declarations the `setup` slot holds
the last one in input order, the overwritten ones land in no type bucket,
and the `start` slot likewise holds the last start-tagged declaration. -/
theorem lifecycle_overwrite_last_wins (ds : List ApiDeclaration)
    (h : 2 ≤ (ds.filter isSetupDecl).length) :
    (groupPluginApi ds).setup = (ds.filter isSetupDecl).getLast? ∧
    (groupPluginApi ds).start = (ds.filter isStartDecl).getLast? ∧
    ∀ d ∈ ds, (isSetupDecl d = true ∨ isStartDecl d = true) →
      d ∉ (groupPluginApi ds).classes ∧ d ∉ (groupPluginApi ds).interfaces ∧
        d ∉ (groupPluginApi ds).enums ∧ d ∉ (groupPluginApi ds).functions ∧
        d ∉ (groupPluginApi ds).objects ∧ d ∉ (groupPluginApi ds).misc := by
  refine ⟨groupPluginApi_setup ds, groupPluginApi_start ds, ?_⟩
  intro d _ hls
  have hnt : inTypeBuckets d = false := by
    rcases hls with h1 | h1 <;> simp [inTypeBuckets, h1]
  exact not_mem_type_buckets ds d hnt

/-- Witness for C4: two setup-tagged declarations; the scope keeps the
second and neither reaches a type bucket. -/
theorem lifecycle_overwrite_last_wins_witness :
    2 ≤ (([setupDeclA, setupDeclB] : List ApiDeclaration).filter isSetupDecl).length ∧
      ((groupPluginApi [setupDeclA, setupDeclB]).setup
          = ([setupDeclA, setupDeclB].filter isSetupDecl).getLast? ∧
        (groupPluginApi [setupDeclA, setupDeclB]).start
          = ([setupDeclA, setupDeclB].filter isStartDecl).getLast? ∧
        ∀ d ∈ [setupDeclA, setupDeclB],
          (isSetupDecl d = true ∨ isStartDecl d = true) →
            d ∉ (groupPluginApi [setupDeclA, setupDeclB]).classes ∧
              d ∉ (groupPluginApi [setupDeclA, setupDeclB]).interfaces ∧
              d ∉ (groupPluginApi [setupDeclA, setupDeclB]).enums ∧
              d ∉ (groupPluginApi [setupDeclA, setupDeclB]).functions ∧
              d ∉ (groupPluginApi [setupDeclA, setupDeclB]).objects ∧
              d ∉ (groupPluginApi [setupDeclA, setupDeclB]).misc) :=
  ⟨by decide, lifecycle_overwrite_last_wins [setupDeclA, setupDeclB] (by decide)⟩

/-- C1 as stated fails: grouping two setup-tagged declarations keeps only
the last one, so the count falls short of the input length. -/
theorem count_group_length_counterexample :
    countScopeApi (groupPluginApi [setupDeclA, setupDeclB])
      ≠ ([setupDeclA, setupDeclB] : List ApiDeclaration).length := by decide

/-- C1 amended: the count equals the input length whenever at most one
declaration carries lifecycle tag Setup and at most one carries Start —
overwritten lifecycle declarations are the only ones dropped. -/
theorem count_group_eq_length_of_unique_lifecycle (ds : List ApiDeclaration)
    (hsetup : (ds.filter isSetupDecl).length ≤ 1)
    (hstart : (ds.filter isStartDecl).length ≤ 1) :
    countScopeApi (groupPluginApi ds) = ds.length := by
  have hpart := length_partition ds
  unfold countScopeApi
  rw [groupPluginApi_setup, groupPluginApi_start, groupPluginApi_classes,
    groupPluginApi_interfaces, groupPluginApi_functions, groupPluginApi_objects,
    groupPluginApi_enums, groupPluginApi_misc]
  rw [slot_indicator_eq_length _ hsetup, slot_indicator_eq_length _ hstart]
  omega

/-- Witness for the amended C1 on a three-element input with one setup
declaration and no start declaration. -/
theorem count_group_eq_length_witness :
    (([classDecl, miscDecl, setupDeclA] : List ApiDeclaration).filter isSetupDecl).length ≤ 1 ∧
      (([classDecl, miscDecl, setupDeclA] : List ApiDeclaration).filter isStartDecl).length ≤ 1 ∧
      countScopeApi (groupPluginApi [classDecl, miscDecl, setupDeclA])
        = ([classDecl, miscDecl, setupDeclA] : List ApiDeclaration).length :=
  ⟨by decide, by decide,
    count_group_eq_length_of_unique_lifecycle [classDecl, miscDecl, setupDeclA]
      (by decide) (by decide)⟩

/-- C2 as stated fails: the first of two setup-tagged declarations is
overwritten and appears in zero places of the result, not one. -/
theorem occurrences_one_counterexample :
    setupDeclA ∈ [setupDeclA, setupDeclB] ∧
      occurrences (groupPluginApi [setupDeclA, setupDeclB]) setupDeclA ≠ 1 := by decide

/-- A declaration cannot take the start branch and the setup branch. -/
theorem start_not_setup (d : ApiDeclaration) (h : isStartDecl d = true) :
    isSetupDecl d = false := by
  rcases hl : d.lifecycle with _ | l
  · simp [isStartDecl, hl] at h
  · cases l
    · simp [isStartDecl, hl] at h
    · simp [isSetupDecl, hl]

/-- C2 amended: in a duplicate-free input, every declaration occupies at
most one place of the result; one with neither lifecycle tag occupies
exactly one place, while a Setup- or Start-tagged one occupies its slot
exactly when it is the last declaration with that tag, and zero places
otherwise. -/
theorem occurrences_in_scope (ds : List ApiDeclaration) (hnd : ds.Nodup)
    (d : ApiDeclaration) (hd : d ∈ ds) :
    (inTypeBuckets d = true → occurrences (groupPluginApi ds) d = 1) ∧
    (isSetupDecl d = true →
      occurrences (groupPluginApi ds) d
        = if (ds.filter isSetupDecl).getLast? = some d then 1 else 0) ∧
    (isStartDecl d = true →
      occurrences (groupPluginApi ds) d
        = if (ds.filter isStartDecl).getLast? = some d then 1 else 0) := by
  have hcount : ds.count d = 1 := List.count_eq_one_of_mem hnd hd
  unfold occurrences
  rw [groupPluginApi_setup, groupPluginApi_start, groupPluginApi_classes,
    groupPluginApi_interfaces, groupPluginApi_enums, groupPluginApi_functions,
    groupPluginApi_objects, groupPluginApi_misc]
  simp only [count_filter_eq]
  refine ⟨?_, ?_, ?_⟩
  · intro hin
    have hin' := hin
    simp only [inTypeBuckets, Bool.and_eq_true, Bool.not_eq_true'] at hin'
    obtain ⟨hsF, htF⟩ := hin'
    have hsu : ¬ (ds.filter isSetupDecl).getLast? = some d := by
      intro he
      have hm := (List.mem_filter.mp (List.mem_of_getLast?_eq_some he)).2
      simp [hsF] at hm
    have hst : ¬ (ds.filter isStartDecl).getLast? = some d := by
      intro he
      have hm := (List.mem_filter.mp (List.mem_of_getLast?_eq_some he)).2
      simp [htF] at hm
    rw [if_neg hsu, if_neg hst]
    rcases hty : d.type with _ | k
    · simp [destClasses, destInterfaces, destEnums, destFunctions, destObjects,
        destMisc, recognizedKind, hin, hty, hcount]
    · cases k <;>
        simp [destClasses, destInterfaces, destEnums, destFunctions, destObjects,
          destMisc, recognizedKind, hin, hty, hcount]
  · intro hsu
    have htF : isStartDecl d = false := setup_not_start d hsu
    have hnt : inTypeBuckets d = false := by simp [inTypeBuckets, hsu]
    have hstne : ¬ (ds.filter isStartDecl).getLast? = some d := by
      intro he
      have hm := (List.mem_filter.mp (List.mem_of_getLast?_eq_some he)).2
      simp [htF] at hm
    rw [if_neg hstne]
    simp [destClasses, destInterfaces, destEnums, destFunctions, destObjects,
      destMisc, hnt]
  · intro hst
    have hsF : isSetupDecl d = false := start_not_setup d hst
    have hnt : inTypeBuckets d = false := by simp [inTypeBuckets, hst]
    have hsune : ¬ (ds.filter isSetupDecl).getLast? = some d := by
      intro he
      have hm := (List.mem_filter.mp (List.mem_of_getLast?_eq_some he)).2
      simp [hsF] at hm
    rw [if_neg hsune]
    simp [destClasses, destInterfaces, destEnums, destFunctions, destObjects,
      destMisc, hnt]

/-- Witness for the amended C2: a class declaration in a two-element
duplicate-free input. -/
theorem occurrences_in_scope_witness :
    ([setupDeclA, classDecl] : List ApiDeclaration).Nodup ∧
      classDecl ∈ [setupDeclA, classDecl] ∧
      ((inTypeBuckets classDecl = true →
          occurrences (groupPluginApi [setupDeclA, classDecl]) classDecl = 1) ∧
        (isSetupDecl classDecl = true →
          occurrences (groupPluginApi [setupDeclA, classDecl]) classDecl
            = if ([setupDeclA, classDecl].filter isSetupDecl).getLast? = some classDecl
              then 1 else 0) ∧
        (isStartDecl classDecl = true →
          occurrences (groupPluginApi [setupDeclA, classDecl]) classDecl
            = if ([setupDeclA, classDecl].filter isStartDecl).getLast? = some classDecl
              then 1 else 0)) :=
  ⟨by decide, by decide,
    occurrences_in_scope [setupDeclA, classDecl] (by decide) classDecl (by decide)⟩

end KbnDocsUtils
